import Mathlib

/-!
Shallow embedding of the two notebooks of this repository.

The first notebook ("Deploying an Amazon Comprehend Model with SageMaker
Pipelines") builds a declarative SageMaker pipeline: five pipeline
parameters, an `SKLearnProcessor`, three `ProcessingStep`s running the
scripts `prepare_data.py`, `train_eval_comprehend.py` and
`deploy_comprehend.py`, a `ConditionStep` gating the deploy step on the
`Accuracy` field of the `evaluation.json` property file, a `LambdaStep`
testing the Comprehend endpoint, and the `Pipeline` object tying them
together.  The second notebook drives SageMaker Debugger profiling
analysis.  The step objects below transcribe the keyword arguments of the
corresponding SDK constructor calls; notebook code cells are additionally
modelled at statement granularity for the claims about assignments,
blocking waits and exception handling.
-/

namespace SMPipeline

/-- Type tag of a SageMaker pipeline parameter (`ParameterInteger` /
`ParameterString`). -/
inductive ParamType where
  | integer
  | string
deriving DecidableEq, Repr

/-- Default value carried by a pipeline parameter. -/
inductive ParamDefault where
  | intDefault (n : Int)
  | strDefault (s : String)
deriving DecidableEq, Repr

/-- A SageMaker pipeline parameter: name, declared type, default value. -/
structure Parameter where
  name : String
  type : ParamType
  default_value : ParamDefault
deriving DecidableEq, Repr

/-- A value appearing in a step configuration: a string literal, a
reference to a pipeline parameter by name, a reference to another step's
output channel (`step.properties.ProcessingOutputConfig.Outputs[ch].S3Output.S3Uri`),
or the notebook's `role_arn` session variable. -/
inductive ConfigValue where
  | lit (s : String)
  | paramRef (name : String)
  | outputRef (step_name output_name : String)
  | roleRef
deriving DecidableEq, Repr

/-- `ProcessingInput(source=..., destination=...)`. -/
structure ProcessingInput where
  source : ConfigValue
  destination : String
deriving DecidableEq, Repr

/-- `ProcessingOutput(output_name=..., source=...)`. -/
structure ProcessingOutput where
  output_name : String
  source : String
deriving DecidableEq, Repr

/-- `PropertyFile(name=..., output_name=..., path=...)`. -/
structure PropertyFile where
  name : String
  output_name : String
  path : String
deriving DecidableEq, Repr

/-- The `SKLearnProcessor` constructed in the notebook. -/
structure SKLearnProcessor where
  framework_version : String
  instance_type : ConfigValue
  instance_count : ConfigValue
  base_job_name : String
deriving DecidableEq, Repr

/-- A `ProcessingStep` as configured in the notebook. -/
structure ProcessingStep where
  name : String
  processor : SKLearnProcessor
  inputs : List ProcessingInput
  outputs : List ProcessingOutput
  job_arguments : List ConfigValue
  code : String
  property_files : List PropertyFile
deriving DecidableEq, Repr

/-- `JsonGet(step_name=..., property_file=..., json_path=...)`. -/
structure JsonGet where
  step_name : String
  property_file : PropertyFile
  json_path : String
deriving DecidableEq, Repr

/-- `ConditionGreaterThanOrEqualTo(left=..., right=...)`: holds when the
value fetched by `left` is at least `right`. -/
structure ConditionGreaterThanOrEqualTo where
  left : JsonGet
  right : ℚ
deriving DecidableEq, Repr

/-- A `ConditionStep`; in this notebook both branches hold processing
steps. -/
structure ConditionStep where
  name : String
  conditions : List ConditionGreaterThanOrEqualTo
  if_steps : List ProcessingStep
  else_steps : List ProcessingStep
deriving DecidableEq, Repr

/-- The `Lambda` helper object (function name, script, handler). -/
structure Lambda where
  function_name : String
  execution_role : String
  script : String
  handler : String
deriving DecidableEq, Repr

/-- A `LambdaStep`: the `inputs` dictionary becomes the invocation
event of the Lambda function. -/
structure LambdaStep where
  name : String
  lambda_func : Lambda
  inputs : List (String × ConfigValue)
deriving DecidableEq, Repr

/-- A top-level pipeline step. -/
inductive Step where
  | processing (ps : ProcessingStep)
  | condition (cs : ConditionStep)
  | lambdaStep (ls : LambdaStep)
deriving DecidableEq, Repr

/-- A `Pipeline(name=..., parameters=..., steps=...)`. -/
structure Pipeline where
  name : String
  parameters : List Parameter
  steps : List Step
deriving DecidableEq, Repr

/-! ### The objects defined by the pipeline notebook

`default_bucket` is only known at run time, so definitions that mention it
take the bucket name as an argument. -/

/-- `ParameterInteger(name="ProcessingInstanceCount", default_value=1)`. -/
def processing_instance_count : Parameter :=
  { name := "ProcessingInstanceCount", type := .integer,
    default_value := .intDefault 1 }

/-- `ParameterString(name="ProcessingInstanceType", default_value="ml.m5.xlarge")`. -/
def processing_instance_type : Parameter :=
  { name := "ProcessingInstanceType", type := .string,
    default_value := .strDefault "ml.m5.xlarge" }

/-- `ParameterString(name="TrainData", default_value=f"s3://{default_bucket}/comprehend-train.csv")`. -/
def input_train (default_bucket : String) : Parameter :=
  { name := "TrainData", type := .string,
    default_value := .strDefault ("s3://" ++ default_bucket ++ "/comprehend-train.csv") }

/-- `ParameterString(name="TestData", default_value=f"s3://{default_bucket}/comprehend-test.csv")`. -/
def input_test (default_bucket : String) : Parameter :=
  { name := "TestData", type := .string,
    default_value := .strDefault ("s3://" ++ default_bucket ++ "/comprehend-test.csv") }

/-- `ParameterString(name="ModelOutput", default_value=f"s3://{default_bucket}/model")`. -/
def model_output (default_bucket : String) : Parameter :=
  { name := "ModelOutput", type := .string,
    default_value := .strDefault ("s3://" ++ default_bucket ++ "/model") }

/-- The `SKLearnProcessor(...)` instance shared by the three processing
steps. -/
def sklearn_processor : SKLearnProcessor :=
  { framework_version := "0.23-1",
    instance_type := .paramRef "ProcessingInstanceType",
    instance_count := .paramRef "ProcessingInstanceCount",
    base_job_name := "comprehend-process" }

/-- The `ComprehendProcess` step running `prepare_data.py`.  It is
constructed without a `job_arguments` keyword, so its job-argument list is
empty. -/
def preprocess : ProcessingStep :=
  { name := "ComprehendProcess",
    processor := sklearn_processor,
    inputs :=
      [ { source := .paramRef "TrainData", destination := "/opt/ml/processing/input_train" },
        { source := .paramRef "TestData", destination := "/opt/ml/processing/input_test" } ],
    outputs :=
      [ { output_name := "train", source := "/opt/ml/processing/train" },
        { output_name := "test", source := "/opt/ml/processing/test" } ],
    job_arguments := [],
    code := "prepare_data.py",
    property_files := [] }

/-- `PropertyFile(name="ComprehendEvaluationReport", output_name="evaluation", path="evaluation.json")`. -/
def evaluation_report : PropertyFile :=
  { name := "ComprehendEvaluationReport", output_name := "evaluation",
    path := "evaluation.json" }

/-- The `ComprehendTrainAndEval` step running `train_eval_comprehend.py`. -/
def comprehend_train_and_eval : ProcessingStep :=
  { name := "ComprehendTrainAndEval",
    processor := sklearn_processor,
    inputs := [],
    outputs :=
      [ { output_name := "evaluation", source := "/opt/ml/processing/evaluation" },
        { output_name := "arn", source := "/opt/ml/processing/arn" } ],
    job_arguments :=
      [ .lit "--train-input-file",
        .outputRef "ComprehendProcess" "train",
        .lit "--train-output-path",
        .paramRef "ModelOutput",
        .lit "--iam-role-arn",
        .roleRef ],
    code := "train_eval_comprehend.py",
    property_files := [evaluation_report] }

/-- The `ComprehendDeploy` step running `deploy_comprehend.py`. -/
def step_deploy_model : ProcessingStep :=
  { name := "ComprehendDeploy",
    processor := sklearn_processor,
    inputs := [],
    outputs :=
      [ { output_name := "endpoint_arn", source := "/opt/ml/processing/endpoint_arn" } ],
    job_arguments :=
      [ .lit "--arn-path",
        .outputRef "ComprehendTrainAndEval" "arn" ],
    code := "deploy_comprehend.py",
    property_files := [] }

/-- `ConditionGreaterThanOrEqualTo(left=JsonGet(...), right=0.65)`. -/
def cond_lte : ConditionGreaterThanOrEqualTo :=
  { left :=
      { step_name := "ComprehendTrainAndEval",
        property_file := evaluation_report,
        json_path := "Accuracy" },
    right := 0.65 }

/-- `ConditionStep(name="ComprehendAccuracyCondition", conditions=[cond_lte], if_steps=[step_deploy_model], else_steps=[])`. -/
def step_cond : ConditionStep :=
  { name := "ComprehendAccuracyCondition",
    conditions := [cond_lte],
    if_steps := [step_deploy_model],
    else_steps := [] }

/-- The sample text sent to the Comprehend endpoint by the Lambda step. -/
def example_text : String :=
  "Italian EBU Member RAI has won the 65th Eurovision Song Contest with the song "
    ++ "Zitti e buoni performed by Måneskin. It\x27s the 3rd win for Italy who last triumphed in 1990. "
    ++ "26 countries took part in the Grand Final of the world’s largest live music event, "
    ++ "hosted by Dutch EBU Members NPO, NOS and AVROTROS on Saturday 22 May in Rotterdam. "
    ++ "Måneskin wrote the winning song which finished the night with 524 points, 25 points "
    ++ "ahead of 2nd placed France represented by Barbara Pravi singing Voila. Switzerland’s Gjon’s Tears with Tout l’Univers finished in third place."

/-- `function_name = "DEMO-sagemaker-lambda-step-endpoint-test"`. -/
def function_name : String := "DEMO-sagemaker-lambda-step-endpoint-test"

/-- The `Lambda` helper object; its execution role is created at run time
by `create_lambda_role`, so it is passed in. -/
def endpoint_lambda (lambda_role : String) : Lambda :=
  { function_name := function_name,
    execution_role := lambda_role,
    script := "test_comprehend_lambda.py",
    handler := "test_comprehend_lambda.lambda_handler" }

/-- The `LambdaStep` testing the deployed endpoint. -/
def test_endpoint (lambda_role : String) : LambdaStep :=
  { name := "LambdaStep",
    lambda_func := endpoint_lambda lambda_role,
    inputs :=
      [ ("endpoint_arn_path", .outputRef "ComprehendDeploy" "endpoint_arn"),
        ("text", .lit example_text) ] }

/-- `pipeline_name = "ComprehendPipeline"`. -/
def pipeline_name : String := "ComprehendPipeline"

/-- The `Pipeline(...)` object assembled at the end of the notebook. -/
def pipeline (default_bucket lambda_role : String) : Pipeline :=
  { name := pipeline_name,
    parameters :=
      [ processing_instance_type,
        processing_instance_count,
        input_train default_bucket,
        input_test default_bucket,
        model_output default_bucket ],
    steps :=
      [ .processing preprocess,
        .processing comprehend_train_and_eval,
        .condition step_cond,
        .lambdaStep (test_endpoint lambda_role) ] }

/-! ### Statement-level model of the notebooks

Each code cell of the two notebooks is transcribed as a list of statements,
classified by kind.  Assignments record their target names; the blocking
calls (`execution.wait`, `tj.wait_for_*_profiling_data_to_be_available`,
`time.sleep`) are recorded with their literal arguments. -/

/-- A blocking call appearing in a notebook. -/
inductive WaitCall where
  | executionWait (delay max_attempts : Nat)
  | waitForSysProfilingData
  | waitForFrameworkProfilingData
  | timeSleep (seconds : Nat)
deriving DecidableEq, Repr

/-- A Python statement of a notebook code cell, classified by kind. -/
inductive Stmt where
  | importStmt
  | assign (targets : List String)
  | exprStmt
  | waitCall (w : WaitCall)
  | shellCmd
  | magicCmd
  | funcDef (name : String) (body : List Stmt)
  | forLoop (body : List Stmt)
  | ifStmt (thenBranch elseBranch : List Stmt)
  | tryExcept (body handlers : List Stmt)
  | classDef (name : String) (body : List Stmt)
  | raiseStmt
deriving Repr

/-- The code cells of the Comprehend pipeline notebook, in order. -/
def pipelineNotebookCells : List (List Stmt) :=
  [ [.magicCmd],
    [.magicCmd, .magicCmd],
    [.importStmt, .importStmt, .importStmt, .importStmt, .importStmt,
     .importStmt, .importStmt, .importStmt, .importStmt,
     .assign ["region"], .assign ["sagemaker_session"],
     .assign ["role_arn"], .assign ["default_bucket"]],
    [.importStmt, .assign ["trainFrame"], .exprStmt],
    [.assign ["testFrame"], .exprStmt],
    [.shellCmd, .shellCmd, .shellCmd, .shellCmd],
    [.assign ["processing_instance_count"], .assign ["processing_instance_type"],
     .assign ["input_train"], .assign ["input_test"], .assign ["model_output"]],
    [.assign ["sklearn_processor"]],
    [.assign ["preprocess"]],
    [.assign ["evaluation_report"]],
    [.assign ["comprehend_train_and_eval"]],
    [.assign ["step_deploy_model"]],
    [.exprStmt],
    [.importStmt, .importStmt, .importStmt,
     .assign ["cond_lte"], .assign ["step_cond"]],
    [.importStmt, .assign ["lambda_role"]],
    [.assign ["example_text"]],
    [.assign ["function_name"], .assign ["endpoint_lambda"], .assign ["test_endpoint"]],
    [.exprStmt],
    [.importStmt, .assign ["pipeline_name"], .assign ["pipeline"]],
    [.exprStmt],
    [.assign ["execution"]],
    [.waitCall (.executionWait 300 25)],
    [.exprStmt],
    [.exprStmt] ]

/-- The code cells of the Debugger profiling-analysis notebook, in order. -/
def debuggerNotebookCells : List (List Stmt) :=
  [ [.importStmt, .importStmt, .importStmt],
    [.importStmt, .assign ["role"], .exprStmt, .assign ["session"],
     .assign ["region"], .exprStmt],
    [.assign ["profiler_config"]],
    [.assign ["estimator"]],
    [.exprStmt],
    [.assign ["training_job_name"]],
    [.importStmt, .shellCmd, .shellCmd],
    [.importStmt, .assign ["tj"],
     .waitCall .waitForSysProfilingData,
     .waitCall .waitForFrameworkProfilingData],
    [.importStmt, .assign ["pf"]],
    [.assign ["system_metrics_df"], .assign ["framework_metrics_df"]],
    [.importStmt, .importStmt, .importStmt, .importStmt, .importStmt, .importStmt],
    [.assign ["pf_analysis"]],
    [.assign ["job_statistics"], .assign ["initialization_start"],
     .assign ["initialization_end"], .assign ["training_start"],
     .assign ["training_end"], .assign ["finalization_start"],
     .assign ["finalization_end"]],
    [.exprStmt],
    [.exprStmt],
    [.assign ["python_stats_dir"], .exprStmt, .assign ["python_profiling_config_tj"]],
    [.exprStmt],
    [.assign ["use_pyinstrument"]],
    [.funcDef "display_python_profile_stats"
      [.ifStmt
        [.ifStmt [.forLoop [.exprStmt]] []]
        [.ifStmt [.exprStmt] []]]],
    [.assign ["python_analysis_class"], .assign ["python_analysis"],
     .assign ["step_stats_df"], .exprStmt],
    [.assign ["stats"], .exprStmt],
    [.importStmt, .assign ["system_metrics_reader"], .exprStmt,
     .assign ["metrics_histogram"], .exprStmt],
    [.importStmt, .importStmt,
     .waitCall .waitForSysProfilingData,
     .waitCall .waitForFrameworkProfilingData,
     .waitCall (.timeSleep 30),
     .assign ["framework_metrics_reader"], .exprStmt,
     .waitCall (.timeSleep 30),
     .assign ["view_step_timeline_chart"]],
    [.exprStmt],
    [.ifStmt [.assign ["step"]] [.assign ["step"]],
     .assign ["phase"], .assign ["mode"],
     .assign ["python_step_stats"], .exprStmt],
    [.ifStmt [.exprStmt]
      [.assign ["python_job_stats"], .assign ["training_loop_stats"], .exprStmt]],
    [.importStmt, .assign ["system_metrics_reader"], .exprStmt, .exprStmt,
     .assign ["view_timeline_charts"]],
    [.exprStmt],
    [.exprStmt],
    [.importStmt, .exprStmt, .assign ["view_heatmap"]],
    [.importStmt, .assign ["start_step", "end_step"],
     .assign ["combined_timeline"], .exprStmt],
    [.importStmt, .assign ["tj"],
     .waitCall .waitForSysProfilingData,
     .assign ["system_metrics_reader"],
     .waitCall .waitForFrameworkProfilingData,
     .assign ["framework_metrics_reader"], .exprStmt,
     .importStmt, .assign ["pf"], .assign ["system_metrics_df"],
     .assign ["step_metrics_df"], .exprStmt],
    [.assign ["iterator_metrics"], .exprStmt],
    [.forLoop
      [.assign ["cur_step"], .assign ["step_pid"], .assign ["step_tid"],
       .assign ["cur_step_number"], .assign ["step_start_time"],
       .assign ["step_end_time"], .assign ["step_duration"],
       .assign ["data_iter_cur_step"], .assign ["num_workers"],
       .assign ["dl_time_mean"], .exprStmt]],
    [.assign ["stats"], .exprStmt] ]

/-! ### Collectors over the statement model -/

mutual

/-- Names assigned by a statement, in order (descends into nested
blocks). -/
def stmtAssignedNames : Stmt → List String
  | .assign ts => ts
  | .funcDef _ b => stmtsAssignedNames b
  | .forLoop b => stmtsAssignedNames b
  | .ifStmt t e => stmtsAssignedNames t ++ stmtsAssignedNames e
  | .tryExcept b h => stmtsAssignedNames b ++ stmtsAssignedNames h
  | .classDef _ b => stmtsAssignedNames b
  | _ => []

/-- Names assigned by a statement list, in order. -/
def stmtsAssignedNames : List Stmt → List String
  | [] => []
  | s :: rest => stmtAssignedNames s ++ stmtsAssignedNames rest

end

mutual

/-- Blocking calls issued by a statement, in order. -/
def stmtWaits : Stmt → List WaitCall
  | .waitCall w => [w]
  | .funcDef _ b => stmtsWaits b
  | .forLoop b => stmtsWaits b
  | .ifStmt t e => stmtsWaits t ++ stmtsWaits e
  | .tryExcept b h => stmtsWaits b ++ stmtsWaits h
  | .classDef _ b => stmtsWaits b
  | _ => []

/-- Blocking calls issued by a statement list, in order. -/
def stmtsWaits : List Stmt → List WaitCall
  | [] => []
  | s :: rest => stmtWaits s ++ stmtsWaits rest

end

mutual

/-- Whether a statement contains an exception handler, a class
definition, or a raise statement. -/
def stmtUsesExceptionMachinery : Stmt → Bool
  | .tryExcept _ _ => true
  | .classDef _ _ => true
  | .raiseStmt => true
  | .funcDef _ b => stmtsUseExceptionMachinery b
  | .forLoop b => stmtsUseExceptionMachinery b
  | .ifStmt t e => stmtsUseExceptionMachinery t || stmtsUseExceptionMachinery e
  | _ => false

/-- Whether a statement list contains an exception handler, a class
definition, or a raise statement. -/
def stmtsUseExceptionMachinery : List Stmt → Bool
  | [] => false
  | s :: rest => stmtUsesExceptionMachinery s || stmtsUseExceptionMachinery rest

end

/-- All names assigned across a notebook's cells, in order. -/
def notebookAssignedNames (cells : List (List Stmt)) : List String :=
  stmtsAssignedNames cells.flatten

/-- All blocking calls issued across a notebook's cells, in order. -/
def notebookWaits (cells : List (List Stmt)) : List WaitCall :=
  stmtsWaits cells.flatten

/-- Whether a notebook contains an exception handler, a class definition,
or a raise statement. -/
def notebookUsesExceptionMachinery (cells : List (List Stmt)) : Bool :=
  stmtsUseExceptionMachinery cells.flatten

/-! ### Step output references and their producers -/

/-- Output references contained in a configuration value, as
(producer step name, output channel name) pairs. -/
def configValueRefs : ConfigValue → List (String × String)
  | .outputRef s ch => [(s, ch)]
  | _ => []

/-- Output references consumed by a processing step, through its
`ProcessingInput` sources and its job arguments. -/
def processingStepRefs (ps : ProcessingStep) : List (String × String) :=
  (ps.inputs.map (fun i => configValueRefs i.source)).flatten
    ++ (ps.job_arguments.map configValueRefs).flatten

/-- Output references consumed by a condition step: each `JsonGet`
reads the named property file from the named step's output channel. -/
def conditionStepRefs (cs : ConditionStep) : List (String × String) :=
  cs.conditions.map (fun c => (c.left.step_name, c.left.property_file.output_name))

/-- Output references consumed by a step. -/
def stepRefs : Step → List (String × String)
  | .processing ps => processingStepRefs ps
  | .condition cs => conditionStepRefs cs
  | .lambdaStep ls => (ls.inputs.map (fun kv => configValueRefs kv.2)).flatten

/-- The name of a step. -/
def stepName : Step → String
  | .processing ps => ps.name
  | .condition cs => cs.name
  | .lambdaStep ls => ls.name

/-- The output channels a step declares. -/
def declaredOutputs : Step → List String
  | .processing ps => ps.outputs.map ProcessingOutput.output_name
  | .condition _ => []
  | .lambdaStep _ => []

/-- The steps of the pipeline notebook in the order they are defined,
with the deploy step listed at its own definition site (it is also
nested in `step_cond.if_steps`). -/
def definedSteps : List Step :=
  [ .processing preprocess,
    .processing comprehend_train_and_eval,
    .processing step_deploy_model,
    .condition step_cond,
    .lambdaStep (test_endpoint "lambda-role") ]

/-- Checks that, walking a step list in order, every output reference of
a step names an output channel declared by a strictly earlier step. -/
def refsPointBackwards : List Step → List Step → Bool
  | _, [] => true
  | earlier, s :: rest =>
      (stepRefs s).all (fun r =>
        earlier.any (fun p => stepName p == r.1 && (declaredOutputs p).contains r.2))
      && refsPointBackwards (earlier ++ [s]) rest

/-! ### Execution semantics of the assembled pipeline

Modelled from the spec: the managed pipeline engine executes the
declarative DAG of steps; a condition step is "a managed branch construct
gating downstream steps on a predicate" (it runs its `if_steps` when all
of its conditions hold and its `else_steps` otherwise), and a step that
consumes another step's output reference can only run once that producer
step has run, so a consumer of a skipped step's output is skipped as
well.  The engine itself is vendor-side and not part of this repository;
only the step structure it interprets is.  An execution is summarised by
the parsed content of the `evaluation.json` report, given as a map from
JSON paths to numbers. -/

/-- The value fetched by a `JsonGet` accessor from the report content. -/
def jsonGetValue (report : String → ℚ) (j : JsonGet) : ℚ :=
  report j.json_path

/-- Evaluation of a `ConditionGreaterThanOrEqualTo` against the report. -/
def evalCondition (report : String → ℚ) (c : ConditionGreaterThanOrEqualTo) : Bool :=
  decide (c.right ≤ jsonGetValue report c.left)

/-- Producer step names a processing step depends on. -/
def processingStepDeps (ps : ProcessingStep) : List String :=
  (processingStepRefs ps).map Prod.fst

/-- Producer step names a step depends on. -/
def stepDeps (s : Step) : List String :=
  (stepRefs s).map Prod.fst

/-- Runs the processing steps of a condition branch: a branch step runs
when all of its producers have run. -/
def runBranch (done : List String) : List ProcessingStep → List String
  | [] => done
  | ps :: rest =>
      if (processingStepDeps ps).all done.contains then
        runBranch (done ++ [ps.name]) rest
      else
        runBranch done rest

/-- Runs a list of top-level steps, accumulating the names of executed
steps: a step runs only when all of its producers have run; a condition
step that runs evaluates its conditions and runs the corresponding
branch. -/
def runSteps (report : String → ℚ) (done : List String) : List Step → List String
  | [] => done
  | s :: rest =>
      if (stepDeps s).all done.contains then
        match s with
        | .processing ps => runSteps report (done ++ [ps.name]) rest
        | .condition cs =>
            if cs.conditions.all (evalCondition report) then
              runSteps report (runBranch (done ++ [cs.name]) cs.if_steps) rest
            else
              runSteps report (runBranch (done ++ [cs.name]) cs.else_steps) rest
        | .lambdaStep ls => runSteps report (done ++ [ls.name]) rest
      else
        runSteps report done rest

/-- The names of the steps executed in a pipeline execution whose
evaluation report parses to `report`. -/
def executedSteps (report : String → ℚ) (p : Pipeline) : List String :=
  runSteps report [] p.steps

/-- Number of polls performed by a blocking waiter that checks a status
predicate up to `max_attempts` times and stops at the first success. -/
def waiterPolls (max_attempts : Nat) (done : Nat → Bool) : Nat :=
  match max_attempts with
  | 0 => 0
  | k + 1 => if done 0 then 1 else 1 + waiterPolls k (fun i => done (i + 1))

/-- Whether `root` is an initial segment of `path` (on character lists). -/
def pathUnder (root path : List Char) : Bool :=
  match root, path with
  | [], _ => true
  | _ :: _, [] => false
  | c :: cs, d :: ds => c == d && pathUnder cs ds

/-- Whether every declared input destination and output source of a
processing step is a local path under `/opt/ml/processing/`. -/
def wiredUnderProcessingDir (ps : ProcessingStep) : Bool :=
  ps.inputs.all (fun i => pathUnder "/opt/ml/processing/".data i.destination.data)
    && ps.outputs.all (fun o => pathUnder "/opt/ml/processing/".data o.source.data)

/-! ### Theorems -/

/-- Helper: the steps executed by the assembled pipeline, as a function of
the `Accuracy` value of the evaluation report. -/
theorem executedSteps_pipeline_eq (report : String → ℚ) (b l : String) :
    executedSteps report (pipeline b l) =
      if (0.65 : ℚ) ≤ report "Accuracy" then
        ["ComprehendProcess", "ComprehendTrainAndEval",
         "ComprehendAccuracyCondition", "ComprehendDeploy", "LambdaStep"]
      else
        ["ComprehendProcess", "ComprehendTrainAndEval",
         "ComprehendAccuracyCondition"] := by
  by_cases h : (0.65 : ℚ) ≤ report "Accuracy" <;>
    simp [executedSteps, pipeline, runSteps, runBranch, stepDeps, stepRefs,
      processingStepRefs, processingStepDeps, conditionStepRefs, configValueRefs,
      evalCondition, jsonGetValue, cond_lte, step_cond, preprocess,
      comprehend_train_and_eval, step_deploy_model, test_endpoint, h]

/-- Helper: a waiter with at most `n` attempts performs at most `n`
polls. -/
theorem waiterPolls_le (n : Nat) (done : Nat → Bool) : waiterPolls n done ≤ n := by
  induction n generalizing done with
  | zero => simp [waiterPolls]
  | succ k ih =>
      simp only [waiterPolls]
      split
      · omega
      · have := ih (fun i => done (i + 1))
        omega

/-- C1: the deployment gate is the single comparison `accuracy >= 0.65`:
in any execution of the assembled pipeline, the `ComprehendDeploy` step
executes if and only if the `Accuracy` value of the evaluation report is
at least 0.65 (so it is skipped whenever accuracy is below 0.65), and the
condition step's if-branch is exactly `[step_deploy_model]` while its
else-branch is empty. -/
theorem C1_deploy_gate (report : String → ℚ) (b l : String) :
    ("ComprehendDeploy" ∈ executedSteps report (pipeline b l)
        ↔ (0.65 : ℚ) ≤ report "Accuracy")
      ∧ step_cond.if_steps = [step_deploy_model]
      ∧ step_cond.else_steps = [] := by
  refine ⟨?_, rfl, rfl⟩
  rw [executedSteps_pipeline_eq]
  by_cases h : (0.65 : ℚ) ≤ report "Accuracy" <;> simp [h]

/-- C2: the evaluation report is the property file `evaluation.json`
(output channel `evaluation` of the `ComprehendTrainAndEval` step, listed
among that step's property files), and the condition deciding the deploy
step reads exactly the `Accuracy` field of that property file via a
`JsonGet` accessor. -/
theorem C2_evaluation_report_wiring :
    evaluation_report.path = "evaluation.json"
      ∧ evaluation_report.output_name = "evaluation"
      ∧ evaluation_report ∈ comprehend_train_and_eval.property_files
      ∧ "evaluation" ∈ comprehend_train_and_eval.outputs.map ProcessingOutput.output_name
      ∧ comprehend_train_and_eval.name = "ComprehendTrainAndEval"
      ∧ step_cond.conditions = [cond_lte]
      ∧ cond_lte.left.step_name = "ComprehendTrainAndEval"
      ∧ cond_lte.left.property_file = evaluation_report
      ∧ cond_lte.left.json_path = "Accuracy" := by
  refine ⟨rfl, rfl, List.Mem.head _, ?_, rfl, rfl, rfl, rfl, rfl⟩
  simp [comprehend_train_and_eval]

/-- C3: the pipeline is constructed with precisely five parameters and no
others: ProcessingInstanceType (string, default "ml.m5.xlarge"),
ProcessingInstanceCount (integer, default 1), TrainData, TestData and
ModelOutput (strings, with S3-URI defaults built from the default
bucket). -/
theorem C3_pipeline_parameters (b l : String) :
    (pipeline b l).parameters =
      [ { name := "ProcessingInstanceType", type := .string,
          default_value := .strDefault "ml.m5.xlarge" },
        { name := "ProcessingInstanceCount", type := .integer,
          default_value := .intDefault 1 },
        { name := "TrainData", type := .string,
          default_value := .strDefault ("s3://" ++ b ++ "/comprehend-train.csv") },
        { name := "TestData", type := .string,
          default_value := .strDefault ("s3://" ++ b ++ "/comprehend-test.csv") },
        { name := "ModelOutput", type := .string,
          default_value := .strDefault ("s3://" ++ b ++ "/model") } ] := rfl

/-- C4: each of the five pipeline-parameter variables is assigned exactly
once in the pipeline notebook (so a parameter's name, type and default
are never mutated after definition), and the parameters are thereafter
consumed by step configuration (the processor's instance type/count, the
preprocess step's inputs, and the training step's job arguments reference
them). -/
theorem C4_parameters_defined_once :
    (∀ p ∈ ["processing_instance_count", "processing_instance_type",
            "input_train", "input_test", "model_output"],
        (notebookAssignedNames pipelineNotebookCells).count p = 1)
      ∧ sklearn_processor.instance_type = .paramRef "ProcessingInstanceType"
      ∧ sklearn_processor.instance_count = .paramRef "ProcessingInstanceCount"
      ∧ preprocess.inputs.map ProcessingInput.source
          = [.paramRef "TrainData", .paramRef "TestData"]
      ∧ ConfigValue.paramRef "ModelOutput" ∈ comprehend_train_and_eval.job_arguments := by
  decide

/-- C5 counterexample: it is not the case that every one of the three
processing steps passes argv-style flags as job arguments — the
`ComprehendProcess` step running `prepare_data.py` is constructed with no
job arguments at all. -/
theorem C5_counterexample :
    ¬ (∀ s ∈ [preprocess, comprehend_train_and_eval, step_deploy_model],
        s.job_arguments ≠ []) := by
  decide

/-- C5 (amended): the three scripts `prepare_data.py`,
`train_eval_comprehend.py` and `deploy_comprehend.py` are each invoked as
a containerized processing step; the train/eval and deploy steps are
passed argv-style flags as job arguments while the prepare step is passed
none, and every declared input and output of the three steps is wired to
a fixed local path under `/opt/ml/processing/`. -/
theorem C5_processing_steps_amended :
    [preprocess.code, comprehend_train_and_eval.code, step_deploy_model.code]
        = ["prepare_data.py", "train_eval_comprehend.py", "deploy_comprehend.py"]
      ∧ preprocess.job_arguments = []
      ∧ comprehend_train_and_eval.job_arguments
          = [.lit "--train-input-file", .outputRef "ComprehendProcess" "train",
             .lit "--train-output-path", .paramRef "ModelOutput",
             .lit "--iam-role-arn", .roleRef]
      ∧ step_deploy_model.job_arguments
          = [.lit "--arn-path", .outputRef "ComprehendTrainAndEval" "arn"]
      ∧ (∀ s ∈ [preprocess, comprehend_train_and_eval, step_deploy_model],
          wiredUnderProcessingDir s = true) := by
  decide

/-- C6: the Lambda step invokes the entry point
`test_comprehend_lambda.lambda_handler` with an event of exactly two
inputs: `endpoint_arn_path`, the S3 URI of the `ComprehendDeploy` step's
`endpoint_arn` output channel (which that step declares), and `text`, the
sample text string. -/
theorem C6_lambda_step_event (lambda_role : String) :
    (test_endpoint lambda_role).lambda_func.handler
        = "test_comprehend_lambda.lambda_handler"
      ∧ (test_endpoint lambda_role).lambda_func.script = "test_comprehend_lambda.py"
      ∧ (test_endpoint lambda_role).inputs
          = [("endpoint_arn_path", .outputRef "ComprehendDeploy" "endpoint_arn"),
             ("text", .lit example_text)]
      ∧ step_deploy_model.name = "ComprehendDeploy"
      ∧ step_deploy_model.outputs.map ProcessingOutput.output_name = ["endpoint_arn"] :=
  ⟨rfl, rfl, rfl, rfl, rfl⟩

/-- C7: walking the steps in definition order, every step output
reference names an output channel declared by a strictly earlier step
(so the step-dependency graph is acyclic), step names are distinct (each
reference has one producer), and the three references of the claim are
present: the train/eval step consumes `ComprehendProcess`'s `train`
output, the deploy step consumes `ComprehendTrainAndEval`'s `arn` output,
and the Lambda step consumes `ComprehendDeploy`'s `endpoint_arn`
output. -/
theorem C7_step_references_acyclic :
    refsPointBackwards [] definedSteps = true
      ∧ (definedSteps.map stepName).Nodup
      ∧ ("ComprehendProcess", "train")
          ∈ stepRefs (.processing comprehend_train_and_eval)
      ∧ ("ComprehendTrainAndEval", "arn")
          ∈ stepRefs (.processing step_deploy_model)
      ∧ ("ComprehendDeploy", "endpoint_arn")
          ∈ stepRefs (.lambdaStep (test_endpoint "lambda-role")) := by
  decide

/-- C8 counterexample: the debugger notebook does not only call the two
`tj.wait_for_*_profiling_data_to_be_available` waits — it also issues
`time.sleep(30)` blocking sleeps. -/
theorem C8_counterexample :
    ¬ (∀ w ∈ notebookWaits debuggerNotebookCells,
        w = WaitCall.waitForSysProfilingData
          ∨ w = WaitCall.waitForFrameworkProfilingData) := by
  decide

/-- C8 (amended): the only waiting the notebooks perform is blocking
calls with fixed literal parameters: the pipeline notebook waits exactly
once, via `execution.wait(delay=300, max_attempts=25)` (and a waiter
capped at 25 attempts performs at most 25 polls); every blocking call of
the debugger notebook is one of the two `tj.wait_for_*` calls or a
`time.sleep(30)`. -/
theorem C8_waits_amended :
    notebookWaits pipelineNotebookCells = [.executionWait 300 25]
      ∧ (∀ w ∈ notebookWaits debuggerNotebookCells,
          w = WaitCall.waitForSysProfilingData
            ∨ w = WaitCall.waitForFrameworkProfilingData
            ∨ w = WaitCall.timeSleep 30)
      ∧ (∀ done : Nat → Bool, waiterPolls 25 done ≤ 25) :=
  ⟨rfl, by decide, fun done => waiterPolls_le 25 done⟩

/-- C9: neither notebook contains an exception handler, a locally defined
class (in particular no local error type), or a raise statement, so every
error raised by the SDK or the AWS services propagates unchanged to the
notebook user. -/
theorem C9_no_exception_handling :
    notebookUsesExceptionMachinery pipelineNotebookCells = false
      ∧ notebookUsesExceptionMachinery debuggerNotebookCells = false :=
  ⟨rfl, rfl⟩

/-- C10: the Lambda endpoint-test step is transitively gated by the
accuracy condition: its event references the `ComprehendDeploy` step's
`endpoint_arn` output, so in every execution where accuracy is below
0.65 the deploy step is skipped and the Lambda step never executes
either. -/
theorem C10_lambda_transitively_gated (report : String → ℚ) (b l : String)
    (h : report "Accuracy" < 0.65) :
    "LambdaStep" ∉ executedSteps report (pipeline b l)
      ∧ "ComprehendDeploy" ∉ executedSteps report (pipeline b l)
      ∧ ("ComprehendDeploy", "endpoint_arn")
          ∈ stepRefs (.lambdaStep (test_endpoint l)) := by
  have hle : ¬ (0.65 : ℚ) ≤ report "Accuracy" := not_le.mpr h
  rw [executedSteps_pipeline_eq]
  refine ⟨?_, ?_, ?_⟩
  · simp [hle]
  · simp [hle]
  · simp [stepRefs, test_endpoint, configValueRefs]

/-- C10 witness: a concrete execution whose report gives accuracy 1/2
(below 0.65) skips the Lambda step. -/
theorem C10_witness :
    ((fun _ : String => (1 : ℚ) / 2) "Accuracy" < 0.65)
      ∧ "LambdaStep" ∉ executedSteps (fun _ => (1 : ℚ) / 2) (pipeline "bucket" "role") := by
  have h : ((fun _ : String => (1 : ℚ) / 2) "Accuracy" < 0.65) := by norm_num
  exact ⟨h, (C10_lambda_transitively_gated (fun _ => (1 : ℚ) / 2) "bucket" "role" h).1⟩

end SMPipeline
